import Mathlib

/-!
Verification development for the bot-campaign repository.

Shallow embedding conventions:
- Python `time.time()` timestamps and float arithmetic are modelled over `ℚ`.
- Python `int(x)` (truncation toward zero) is modelled by `pyInt`.
- Python `//` (floor division on ints) is modelled by `Int.fdiv`.
- Fallible operations (a Python statement that can raise) return `Except String _`.
- `asyncio` suspension is irrelevant to the modelled state transitions: every
  method of the source mutates its object's state under one lock, so each
  method is a state transformer; `await asyncio.sleep(d)` inside `acquire`
  is modelled by advancing the current-time argument by exactly `d`.
-/

attribute [local semireducible] Rat.add Rat.sub Rat.mul Rat.inv

deriving instance DecidableEq for Except

/-- Python `int(q)` for a rational `q`: truncation toward zero. -/
def pyInt (q : ℚ) : Int := Int.tdiv q.num (q.den : Int)

/-- Python `s.lower()` restricted to the ASCII range used by the repository. -/
def toLowerStr (s : String) : String := String.mk (s.toList.map Char.toLower)

/-- Python `needle in hay` on strings (contiguous-substring test), on
character lists. -/
def occursIn (needle : List Char) : List Char → Bool
  | [] => needle.isEmpty
  | c :: t => needle.isPrefixOf (c :: t) || occursIn needle t

/-- State of `RateLimiter` (src/limiter.py:11-31). `requests` is the FIFO
deque of admission timestamps, oldest first. -/
structure RLState where
  maxRequests : Int
  timeWindow : ℚ
  requests : List ℚ
  burstAllowance : Int
  burstWindow : Int
deriving DecidableEq

/-- `RateLimiter.__init__` (src/limiter.py:16-31). Note: it performs no
validation of `max_requests` or `time_window`. -/
def mk_rate_limiter (maxRequests timeWindow : Int) : RLState :=
  { maxRequests := maxRequests
    timeWindow := (timeWindow : ℚ)
    requests := []
    burstAllowance := max 1 (Int.fdiv maxRequests 3)
    burstWindow := max 1 (Int.fdiv timeWindow 6) }

/-- The `while self.requests and (now - self.requests[0]) > self.time_window:
popleft()` eviction loop (src/limiter.py:47-49, 76-78). -/
def prune (timeWindow now : ℚ) : List ℚ → List ℚ
  | [] => []
  | r :: rs => if now - r > timeWindow then prune timeWindow now rs else r :: rs

/-- `RateLimiter.can_make_request` (src/limiter.py:67-80). The Python method
also persists the pruned deque; pruning never changes the returned boolean,
and with monotone time it does not change any later observation either, so
the boolean result is modelled purely. -/
def can_make_request (now : ℚ) (s : RLState) : Bool :=
  decide (((prune s.timeWindow now s.requests).length : Int) < s.maxRequests)

/-- `RateLimiter.acquire` (src/limiter.py:42-65), entered at time `now`.
When at capacity it reads `self.requests[0]`; on an empty deque that raises
`IndexError` (modelled by `.error`). When it sleeps, the post-sleep
`time.time()` is modelled as exactly `now + wait + 1/10` (the `0.1` buffer).
The request is recorded unconditionally at the end. -/
def acquireAt (now : ℚ) (s : RLState) : Except String RLState :=
  let reqs := prune s.timeWindow now s.requests
  if s.maxRequests ≤ (reqs.length : Int) then
    match reqs with
    | [] => .error "IndexError: deque index out of range"
    | oldest :: _ =>
      let wait := s.timeWindow - (now - oldest)
      if 0 < wait then
        let now2 := now + (wait + 1 / 10)
        .ok { s with requests := prune s.timeWindow now2 reqs ++ [now2] }
      else
        .ok { s with requests := reqs ++ [now] }
  else
    .ok { s with requests := reqs ++ [now] }

/-- `n` consecutive calls of `acquire`, all entered at time `now`. -/
def acquireIter (now : ℚ) : Nat → RLState → Except String RLState
  | 0, s => .ok s
  | n + 1, s =>
    match acquireAt now s with
    | .ok s2 => acquireIter now n s2
    | .error e => .error e

/-- State of `AdaptiveRateLimiter` (src/limiter.py:165-189). It extends
`RateLimiter`; the inherited sliding-window state lives in `rl`, and
`rl.maxRequests` is the shared, adapted capacity. -/
structure ARLState where
  rl : RLState
  originalMaxRequests : Int
  adaptationFactor : ℚ
  consecutiveSuccesses : Nat
  consecutiveRateLimits : Nat
  recoveryThreshold : Nat
  maxRecoveryAttempts : Nat
  recoveryAttempts : Nat
deriving DecidableEq

/-- `AdaptiveRateLimiter.__init__` (src/limiter.py:170-189). -/
def mk_adaptive_rate_limiter (maxRequests timeWindow : Int) (adaptationFactor : ℚ) : ARLState :=
  { rl := mk_rate_limiter maxRequests timeWindow
    originalMaxRequests := maxRequests
    adaptationFactor := max (1 / 10) (min 1 adaptationFactor)
    consecutiveSuccesses := 0
    consecutiveRateLimits := 0
    recoveryThreshold := 10
    maxRecoveryAttempts := 3
    recoveryAttempts := 0 }

/-- `AdaptiveRateLimiter.handle_rate_limit_response` (src/limiter.py:191-230)
for the `headers=None` call shape (the header-parsing branch at line 212-213
is only entered when a headers dict is passed; every claim is about the
status-code-driven adaptation). `1.2` and the capacity arithmetic follow the
source: `max(1, int(m * adaptation_factor))` and
`min(original, int(m * 1.2))` with Python `int` truncation. -/
def handle_rate_limit_response (statusCode : Int) (s : ARLState) : ARLState :=
  if statusCode = 429 then
    let s1 := { s with
      consecutiveRateLimits := s.consecutiveRateLimits + 1
      consecutiveSuccesses := 0 }
    if 2 ≤ s1.consecutiveRateLimits then
      let newMax := max 1 (pyInt ((s1.rl.maxRequests : ℚ) * s1.adaptationFactor))
      if newMax < s1.rl.maxRequests then
        { s1 with rl := { s1.rl with maxRequests := newMax } }
      else s1
    else s1
  else if 200 ≤ statusCode ∧ statusCode < 300 then
    let s1 := { s with
      consecutiveSuccesses := s.consecutiveSuccesses + 1
      consecutiveRateLimits := 0 }
    if s1.recoveryThreshold ≤ s1.consecutiveSuccesses ∧
        s1.rl.maxRequests < s1.originalMaxRequests ∧
        s1.recoveryAttempts < s1.maxRecoveryAttempts then
      { s1 with
        rl := { s1.rl with
          maxRequests := min s1.originalMaxRequests (pyInt ((s1.rl.maxRequests : ℚ) * (12 / 10))) }
        consecutiveSuccesses := 0
        recoveryAttempts := s1.recoveryAttempts + 1 }
    else s1
  else s

/-- `n` consecutive responses with the same status code. -/
def handle_iter (statusCode : Int) : Nat → ARLState → ARLState
  | 0, s => s
  | n + 1, s => handle_rate_limit_response statusCode (handle_iter statusCode n s)

/-- State of `BotActionLimiter` (src/limiter.py:286-303): five per-type plain
`RateLimiter`s and one overall `AdaptiveRateLimiter`. The per-type limiters
are plain `RateLimiter` instances, which is why they have type `RLState`. -/
structure BALState where
  postLimiter : RLState
  likeLimiter : RLState
  repostLimiter : RLState
  followLimiter : RLState
  searchLimiter : RLState
  overallLimiter : ARLState
deriving DecidableEq

/-- `BotActionLimiter.__init__` (src/limiter.py:291-303); overall adaptive
limiter uses the default `adaptation_factor=0.8`. -/
def mk_bot_action_limiter : BALState :=
  { postLimiter := mk_rate_limiter 2 60
    likeLimiter := mk_rate_limiter 5 60
    repostLimiter := mk_rate_limiter 2 60
    followLimiter := mk_rate_limiter 2 120
    searchLimiter := mk_rate_limiter 10 60
    overallLimiter := mk_adaptive_rate_limiter 8 60 (8 / 10) }

/-- `self.limiters.get(action_type)` (src/limiter.py:294-300, 316, 337, 351). -/
def limiters_get (s : BALState) (actionType : String) : Option RLState :=
  if actionType = "post" then some s.postLimiter
  else if actionType = "like" then some s.likeLimiter
  else if actionType = "repost" then some s.repostLimiter
  else if actionType = "follow" then some s.followLimiter
  else if actionType = "search" then some s.searchLimiter
  else none

/-- `BotActionLimiter.can_perform_action` (src/limiter.py:324-338):
overall check first, then the per-type check only when a per-type limiter
exists for `action_type` (`limiter.can_make_request() if limiter else True`). -/
def can_perform_action (now : ℚ) (actionType : String) (s : BALState) : Bool :=
  if ¬ can_make_request now s.overallLimiter.rl then false
  else
    match limiters_get s actionType with
    | some l => can_make_request now l
    | none => true

/-- The `limiter = self.limiters.get(action_type); if limiter: await
limiter.acquire()` step of `BotActionLimiter.acquire` (src/limiter.py:316-318),
writing the acquired per-type limiter back into the right field. -/
def acquire_type_limiter (now : ℚ) (actionType : String) (s : BALState) :
    Except String BALState :=
  if actionType = "post" then
    (acquireAt now s.postLimiter).map fun l => { s with postLimiter := l }
  else if actionType = "like" then
    (acquireAt now s.likeLimiter).map fun l => { s with likeLimiter := l }
  else if actionType = "repost" then
    (acquireAt now s.repostLimiter).map fun l => { s with repostLimiter := l }
  else if actionType = "follow" then
    (acquireAt now s.followLimiter).map fun l => { s with followLimiter := l }
  else if actionType = "search" then
    (acquireAt now s.searchLimiter).map fun l => { s with searchLimiter := l }
  else .ok s

/-- `BotActionLimiter.acquire` (src/limiter.py:305-318): overall limiter
first, then the per-type limiter when one exists. -/
def acquire_action (now : ℚ) (actionType : String) (s : BALState) :
    Except String BALState :=
  match acquireAt now s.overallLimiter.rl with
  | .error e => .error e
  | .ok orl =>
      acquire_type_limiter now actionType
        { s with overallLimiter := { s.overallLimiter with rl := orl } }

/-- `BotActionLimiter.handle_response` (src/limiter.py:340-353). The source
forwards to the per-type limiter only under
`isinstance(limiter, AdaptiveRateLimiter)`; all five per-type limiters are
constructed as plain `RateLimiter`s (src/limiter.py:294-300), so that test is
false for every action type and only the overall limiter receives the
response. -/
def handle_response (actionType : String) (statusCode : Int) (s : BALState) : BALState :=
  { s with overallLimiter := handle_rate_limit_response statusCode s.overallLimiter }

/-- Result shape of `EnvironmentalScanner._analyze_post_sentiment`
(src/generator.py:1188-1218). -/
structure Sentiment where
  candidate : Option String
  sentimentType : String
  strength : ℚ
deriving DecidableEq

/-- `self.political_keywords['victor']` (src/generator.py:901). -/
def victor_keywords : List String :=
  ["victor", "hawthorne", "victor hawthorne", "economic growth", "business friendly"]

/-- `self.political_keywords['marina']` (src/generator.py:902). -/
def marina_keywords : List String :=
  ["marina", "progressive", "social justice", "climate action"]

/-- `self.sentiment_keywords['positive']` (src/generator.py:908). -/
def positive_keywords : List String :=
  ["great", "excellent", "amazing", "support", "endorse", "love", "fantastic"]

/-- `self.sentiment_keywords['negative']` (src/generator.py:909). -/
def negative_keywords : List String :=
  ["terrible", "awful", "hate", "disappointed", "against", "oppose"]

/-- `sum(1 for keyword in kws if keyword in content_lower)`
(src/generator.py:1199-1204). -/
def count_keyword_matches (kws : List String) (contentLower : String) : Nat :=
  (kws.filter fun k => occursIn k.toList contentLower.toList).length

/-- `EnvironmentalScanner._analyze_post_sentiment` (src/generator.py:1188-1218). -/
def analyze_post_sentiment (content : String) : Sentiment :=
  let contentLower := toLowerStr content
  let victorScore := count_keyword_matches victor_keywords contentLower
  let marinaScore := count_keyword_matches marina_keywords contentLower
  let positiveScore := count_keyword_matches positive_keywords contentLower
  let negativeScore := count_keyword_matches negative_keywords contentLower
  if victorScore > marinaScore ∧ positiveScore > negativeScore then
    { candidate := some "victor", sentimentType := "positive"
      strength := min 1 (((victorScore : ℚ) + (positiveScore : ℚ)) / 5) }
  else if marinaScore > victorScore ∧ positiveScore > negativeScore then
    { candidate := some "marina", sentimentType := "positive"
      strength := min 1 (((marinaScore : ℚ) + (positiveScore : ℚ)) / 5) }
  else if negativeScore > positiveScore then
    { candidate := none, sentimentType := "negative"
      strength := min 1 ((negativeScore : ℚ) / 3) }
  else
    { candidate := none, sentimentType := "neutral", strength := 0 }

/-- The scenario text of the spec, `"Victor Hawthorne's economic growth plan
is great"` (the possessive apostrophe is U+0027, built by `Char.ofNat 39`). -/
def victor_sample_text : String :=
  "Victor Hawthorne" ++ String.singleton (Char.ofNat 39) ++ "s economic growth plan is great"

/-- An action dict produced by `StrategyEngine` (src/generator.py). The
engine's control flow reads back only the `'type'` and `'content_type'` keys
of recorded actions (src/generator.py:1560-1567); the payload keys
(`context`, `query`, `limit`, `engagement_types`) never influence which
branch is taken, so they are not carried in the model. `contentType = none`
models a dict without a `'content_type'` key. -/
structure BotAction where
  atype : String
  contentType : Option String
deriving DecidableEq

/-- A coordination objective dict (src/generator.py:1751-1785): its `'type'`,
`'priority'` and `'targets'` keys. -/
structure CoordObjective where
  ctype : String
  priority : String
  targets : List String
deriving DecidableEq

/-- The `bot_stats` dict keys read by
`StrategyEngine._update_performance_metrics` (src/generator.py:1827-1847). -/
structure BotStats where
  postsCreated : Nat
  likesGiven : Nat
  repostsMade : Nat
  npcInteractions : Nat
  politicalPosts : Nat
deriving DecidableEq

/-- The `StrategyEngine` state read and written by `get_next_action`
(src/generator.py:1400-1430): `recent_actions` (a `deque(maxlen=20)`, newest
last), `coordination_objectives`, the four `strategy_weights` entries, the
`content_strategy['political_ratio']` target (0.4 from
`_build_content_strategy`, src/generator.py:1455-1460), `action_cooldowns`
(a `defaultdict(lambda: datetime.min)`, modelled as an association list with
default `cooldown_never`), and `current_context.get('trending_topics')`. -/
structure StratState where
  recentActions : List BotAction
  coordinationObjectives : List CoordObjective
  postCreationWeight : ℚ
  engagementWeight : ℚ
  trendingParticipationWeight : ℚ
  npcTargetingWeight : ℚ
  politicalRatioTarget : ℚ
  actionCooldowns : List (String × ℚ)
  trendingTopicsContext : List String
deriving DecidableEq

/-- `datetime.min`, the `action_cooldowns` default: a time earlier than every
time the program observes. -/
def cooldown_never : ℚ := -(10 ^ 12)

/-- Lookup in the `action_cooldowns` defaultdict. -/
def cooldown_of (cooldowns : List (String × ℚ)) (actionType : String) : ℚ :=
  match cooldowns.find? (fun p => p.1 = actionType) with
  | some p => p.2
  | none => cooldown_never

/-- `StrategyEngine._get_priority_score` (src/generator.py:1767-1770). -/
def get_priority_score (priority : String) : Nat :=
  let p := toLowerStr priority
  if p = "low" then 1
  else if p = "medium" then 2
  else if p = "high" then 3
  else if p = "urgent" then 4
  else 1

/-- Python `max(objectives, key=score)`: the first element of maximal score. -/
def pick_max_priority (best : CoordObjective) : List CoordObjective → CoordObjective
  | [] => best
  | o :: rest =>
      pick_max_priority
        (if get_priority_score best.priority < get_priority_score o.priority then o else best)
        rest

/-- `StrategyEngine._can_execute_objective` (src/generator.py:1772-1783). -/
def can_execute_objective (now : ℚ) (s : StratState) (o : CoordObjective) : Bool :=
  if now < cooldown_of s.actionCooldowns o.ctype then false
  else if o.ctype = "amplify_trending" then !s.trendingTopicsContext.isEmpty
  else true

/-- `StrategyEngine._convert_objective_to_action` (src/generator.py:1785-1825).
Only the `'type'`/`'content_type'` keys of the produced dict are modelled;
the `random.choice(targets)` draws populate payload keys only. -/
def convert_objective_to_action (o : CoordObjective) : BotAction :=
  if o.ctype = "amplify_trending" then
    { atype := "post", contentType := some "trending_engagement" }
  else if o.ctype = "coordinated_npc_engagement" then
    { atype := "search_and_engage", contentType := none }
  else if o.ctype = "campaign_push" then
    { atype := "post", contentType := some "political" }
  else
    { atype := "post", contentType := some "neutral" }

/-- `StrategyEngine._check_coordination_objectives` (src/generator.py:1751-1765):
empty queue gives `None`; otherwise the first highest-priority objective is
tested against cooldown/context and, when executable, removed and converted. -/
def check_coordination_objectives (now : ℚ) (s : StratState) :
    Option (BotAction × StratState) :=
  match s.coordinationObjectives with
  | [] => none
  | o :: rest =>
      let best := pick_max_priority o rest
      if can_execute_objective now s best then
        some (convert_objective_to_action best,
          { s with coordinationObjectives := s.coordinationObjectives.erase best })
      else none

/-- `StrategyEngine._weighted_random_choice`'s scan loop
(src/generator.py:1742-1749): accumulate weights, return the first option
whose cumulative weight reaches the draw `r`, else `options[-1][0]`. -/
def wrc_scan (r currentWeight : ℚ) : List (String × ℚ) → Option String
  | [] => none
  | (option, weight) :: rest =>
      let cw := currentWeight + weight
      if r ≤ cw then some option
      else
        match rest with
        | [] => some option
        | _ :: _ => wrc_scan r cw rest

/-- `StrategyEngine._weighted_random_choice` (src/generator.py:1735-1749).
The draw `r = random.uniform(0, total_weight)` is passed explicitly.
`options[0][0]` on an empty list raises `IndexError`, modelled by `none`. -/
def weighted_random_choice (options : List (String × ℚ)) (r : ℚ) : Option String :=
  let totalWeight := (options.map Prod.snd).sum
  if totalWeight = 0 then options.head?.map Prod.fst
  else wrc_scan r 0 options

/-- `StrategyEngine._update_performance_metrics` (src/generator.py:1827-1847).
Only `strategy_weights` is ever written; `recent_actions`,
`coordination_objectives` and `content_strategy` are untouched. -/
def update_performance_metrics (stats : BotStats) (s : StratState) : StratState :=
  let totalPosts : Nat := max 1 stats.postsCreated
  let politicalRatio : ℚ := (stats.politicalPosts : ℚ) / (totalPosts : ℚ)
  if 2 / 10 < |politicalRatio - s.politicalRatioTarget| then
    if politicalRatio < s.politicalRatioTarget then
      { s with postCreationWeight := s.postCreationWeight * (11 / 10) }
    else
      { s with engagementWeight := s.engagementWeight * (11 / 10) }
  else s

/-- `sum(1 for action in recent_actions if action['action'].get('content_type')
== 'political')` (src/generator.py:1560-1561). -/
def recent_political_posts (l : List BotAction) : Nat :=
  (l.filter fun a => a.contentType = some "political").length

/-- `len([a for a in recent_actions if a['action'].get('type') == 'post'])`
(src/generator.py:1566-1567). -/
def total_recent_posts (l : List BotAction) : Nat :=
  (l.filter fun a => a.atype = "post").length

/-- `recent_political_posts / max(1, total_recent_posts)`
(src/generator.py:1569-1570). -/
def current_political_ratio (l : List BotAction) : ℚ :=
  (recent_political_posts l : ℚ) / ((max 1 (total_recent_posts l) : Nat) : ℚ)

/-- `StrategyEngine._get_political_content_action` (src/generator.py:1609-1628):
always a `'post'` with `content_type 'political'`. -/
def get_political_content_action : BotAction :=
  { atype := "post", contentType := some "political" }

/-- `StrategyEngine._get_political_influence_action` (src/generator.py:1555-1607).
Below-target political ratio forces `_get_political_content_action`;
otherwise a weighted choice over four fixed options (0.4/0.3/0.2/0.1). The
`'npc_targeting'` branch (`_get_npc_targeting_action`,
src/generator.py:1630-1651) returns a `'search_and_engage'` dict on both of
its paths. -/
def get_political_influence_action (s : StratState) (r : ℚ) : BotAction :=
  if current_political_ratio s.recentActions < s.politicalRatioTarget then
    get_political_content_action
  else
    match weighted_random_choice
        [("post_neutral", 4 / 10), ("political_engagement", 3 / 10),
         ("npc_targeting", 2 / 10), ("trending_political", 1 / 10)] r with
    | some "post_neutral" => { atype := "post", contentType := some "neutral" }
    | some "political_engagement" => { atype := "search_and_engage", contentType := none }
    | some "npc_targeting" => { atype := "search_and_engage", contentType := none }
    | _ => { atype := "search_and_engage", contentType := none }

/-- `StrategyEngine._get_audience_building_action` (src/generator.py:1514-1553). -/
def get_audience_building_action (s : StratState) (r : ℚ) : BotAction :=
  match weighted_random_choice
      [("post_personal", s.postCreationWeight * (12 / 10)),
       ("engage_trending", s.trendingParticipationWeight * (15 / 10)),
       ("community_engagement", s.engagementWeight * (11 / 10))] r with
  | some "post_personal" => { atype := "post", contentType := some "audience_building" }
  | some "engage_trending" => { atype := "search_and_engage", contentType := none }
  | _ => { atype := "search_and_engage", contentType := none }

/-- `deque(maxlen=20).append`: drop the oldest entry when full. -/
def push_recent (a : BotAction) (l : List BotAction) : List BotAction :=
  if 20 ≤ l.length then l.tail ++ [a] else l ++ [a]

/-- `StrategyEngine.get_next_action` (src/generator.py:1477-1513): update
performance metrics, let a pending coordination objective preempt (returning
early, without recording into `recent_actions`), otherwise dispatch on the
phase (`'audience_building'` vs everything else) and record the chosen
action. `r` is the `random.uniform` draw consumed by a weighted choice. -/
def get_next_action (currentPhase : String) (stats : BotStats) (now r : ℚ)
    (s : StratState) : BotAction × StratState :=
  let s1 := update_performance_metrics stats s
  match check_coordination_objectives now s1 with
  | some (a, s2) => (a, s2)
  | none =>
      let a := if currentPhase = "audience_building" then get_audience_building_action s1 r
               else get_political_influence_action s1 r
      (a, { s1 with recentActions := push_recent a s1.recentActions })

/-- The agent state touched by the executed-action paths of
`BaseBot`/`InfluenceBot` (src/base_bot.py:60-75, src/generator.py:541-551):
the `stats` counters, `action_count`, the `influence_stats` counters and the
`engaged_npcs`/`followed_accounts` sets (sets as insertion-ordered duplicate-
free lists). `last_action_time` is omitted: no claim mentions it and it is
written exactly where `action_count` is. -/
structure AgentSlice where
  postsCreated : Nat
  repliesMade : Nat
  likesGiven : Nat
  repostsMade : Nat
  actionCount : Nat
  strategicReplies : Nat
  npcInteractions : Nat
  politicalPosts : Nat
  neutralPosts : Nat
  engagedNpcs : List String
  followedAccounts : List String
deriving DecidableEq

/-- A fresh agent: all counters zero, both sets empty. -/
def agent_slice0 : AgentSlice :=
  { postsCreated := 0, repliesMade := 0, likesGiven := 0, repostsMade := 0
    actionCount := 0, strategicReplies := 0, npcInteractions := 0
    politicalPosts := 0, neutralPosts := 0, engagedNpcs := [], followedAccounts := [] }

/-- Python `set.add` on the insertion-ordered-list model of a set. -/
def insert_target (x : String) (l : List String) : List String :=
  if l.contains x then l else l ++ [x]

/-- `BaseBot.post_content` (src/base_bot.py:139-169). `apiResponse` is the
truthiness of `await self.api.post(...)`; a falsy response and a raised
exception both leave the state unchanged and report failure, so they are
merged into `apiResponse = false`. Returns (truthiness of the returned
value, new state). -/
def post_content (apiResponse : Bool) (parentId : Option String) (st : AgentSlice) :
    Bool × AgentSlice :=
  if apiResponse then
    match parentId with
    | some _ =>
        (true, { st with repliesMade := st.repliesMade + 1, actionCount := st.actionCount + 1 })
    | none =>
        (true, { st with postsCreated := st.postsCreated + 1, actionCount := st.actionCount + 1 })
  else (false, st)

/-- `BaseBot.like_post` (src/base_bot.py:171-192); `success` is the result of
`await self.api.like(post_id)` (an exception behaves as `false`). -/
def like_post (success : Bool) (st : AgentSlice) : Bool × AgentSlice :=
  if success then
    (true, { st with likesGiven := st.likesGiven + 1, actionCount := st.actionCount + 1 })
  else (false, st)

/-- `BaseBot.repost` (src/base_bot.py:194-215). -/
def repost (success : Bool) (st : AgentSlice) : Bool × AgentSlice :=
  if success then
    (true, { st with repostsMade := st.repostsMade + 1, actionCount := st.actionCount + 1 })
  else (false, st)

/-- `InfluenceBot._execute_engagement_action` (src/generator.py:632-675).
`targetPost` carries the `'id'` and `'username'` keys of the target dict;
`likeSuccess`/`repostSuccess` are the platform-call results,
`replyContent` the generated reply (None on generation failure), and
`replySuccess` the truthiness of the reply's `post_content` response. The
final NPC-tracking block (src/generator.py:672-675) runs unconditionally
after the engagement attempt. -/
def execute_engagement_action (username : String) (targetPost : Option (String × String))
    (engagementType : String) (likeSuccess repostSuccess : Bool)
    (replyContent : Option String) (replySuccess : Bool) (st : AgentSlice) : AgentSlice :=
  match targetPost with
  | none => st
  | some (postId, postAuthor) =>
      let st1 :=
        if engagementType = "like" then (like_post likeSuccess st).2
        else if engagementType = "repost" then (repost repostSuccess st).2
        else if engagementType = "reply" then
          match replyContent with
          | some _ =>
              let r := post_content replySuccess (some postId) st
              if r.1 then { r.2 with strategicReplies := r.2.strategicReplies + 1 } else r.2
          | none => st
        else st
      if postAuthor ≠ username ∧ (postAuthor.toList.contains '@') = false then
        { st1 with
          engagedNpcs := insert_target postAuthor st1.engagedNpcs
          npcInteractions := st1.npcInteractions + 1 }
      else st1

/-- `InfluenceBot._execute_follow_action` (src/generator.py:677-690):
`api.follow_user` is called only for a truthy, not-yet-followed target;
`followed_accounts` is updated only on success. An empty-string target models
a falsy `target_user`. -/
def execute_follow_action (targetUser : Option String) (followSuccess : Bool)
    (st : AgentSlice) : AgentSlice :=
  match targetUser with
  | none => st
  | some u =>
      if u = "" then st
      else if st.followedAccounts.contains u then st
      else if followSuccess then { st with followedAccounts := insert_target u st.followedAccounts }
      else st

/-- `InfluenceBot._execute_post_action` (src/generator.py:598-630):
`influence_stats` buckets are bumped only when content was generated and
`post_content` returned a truthy response. -/
def execute_post_action (contentType : String) (contentGenerated : Bool)
    (apiResponse : Bool) (st : AgentSlice) : AgentSlice :=
  if contentGenerated then
    let r := post_content apiResponse none st
    if r.1 then
      if contentType = "political" ∨ contentType = "campaign" then
        { r.2 with politicalPosts := r.2.politicalPosts + 1 }
      else
        { r.2 with neutralPosts := r.2.neutralPosts + 1 }
    else r.2
  else st

/-- One entry of `BotManager.account_credentials` (src/mamager.py:99-104):
the `'username'`/`'password'` keys; a missing or falsy value is modelled by
the empty string. -/
structure BotCredentials where
  username : String
  password : String
deriving DecidableEq

/-- The identity of one created `InfluenceBot` as `create_bot_fleet` builds it
(src/mamager.py:109-117): its credential username and assigned persona. -/
structure BotRec where
  username : String
  personaName : String
deriving DecidableEq

/-- The `for i in range(num_bots)` loop body of `BotManager.create_bot_fleet`
(src/mamager.py:95-122): `fuel` counts the remaining iterations, `i` is the
loop index. `credentials.get? i = none` is the `if i >=
len(self.account_credentials): break` guard; a falsy username or password
logs a warning and `continue`s; otherwise a bot is appended with persona
`available_personas[i % len(available_personas)]`. -/
def fleet_loop (credentials : List BotCredentials) (personas : List String) :
    Nat → Nat → List BotRec
  | 0, _ => []
  | fuel + 1, i =>
      match credentials.get? i with
      | none => []
      | some c =>
          if c.username = "" ∨ c.password = "" then fleet_loop credentials personas fuel (i + 1)
          else
            { username := c.username, personaName := personas.getD (i % personas.length) "" } ::
              fleet_loop credentials personas fuel (i + 1)

/-- `BotManager.create_bot_fleet` (src/mamager.py:70-125): fails when fewer
than `num_bots` credentials are configured or when no personas are
configured; otherwise runs the creation loop and returns
`len(self.bots) > 0` together with the created bots (the manager starts with
an empty `self.bots`). -/
def create_bot_fleet (numBots : Nat) (credentials : List BotCredentials)
    (personas : List String) : Bool × List BotRec :=
  if credentials.length < numBots then (false, [])
  else if personas.isEmpty then (false, [])
  else
    let bots := fleet_loop credentials personas numBots 0
    (decide (0 < bots.length), bots)

/-! ## Facts about the sliding-window limiter -/

/-- Pruning at the exact timestamp of the entries removes nothing: eviction
requires `now - r > time_window` strictly. -/
theorem prune_replicate_self (w t : ℚ) (hw : 0 ≤ w) (n : Nat) :
    prune w t (List.replicate n t) = List.replicate n t := by
  cases n with
  | zero => rfl
  | succ m =>
      simp only [List.replicate_succ, prune]
      rw [if_neg]
      simp only [sub_self]
      exact not_lt.mpr hw

/-- Once `now - t` strictly exceeds the window, every entry stamped `t` is
evicted. -/
theorem prune_replicate_gone (w t now : ℚ) (h : w < now - t) (n : Nat) :
    prune w now (List.replicate n t) = [] := by
  induction n with
  | zero => rfl
  | succ m ih =>
      simp only [List.replicate_succ, prune]
      rw [if_pos h]
      exact ih

/-- `j` below-capacity admissions at one instant fill the queue with `j`
copies of that timestamp. -/
theorem acquireIter_fills (k : Nat) (w : Int) (t : ℚ) (hw : (0:Int) ≤ w) :
    ∀ (j i : Nat), i + j ≤ k →
      acquireIter t j { mk_rate_limiter (k : Int) w with requests := List.replicate i t } =
        .ok { mk_rate_limiter (k : Int) w with requests := List.replicate (i + j) t } := by
  intro j
  induction j with
  | zero => intro i _; simp [acquireIter]
  | succ m ih =>
      intro i hik
      have hw' : (0:ℚ) ≤ (w : ℚ) := by exact_mod_cast hw
      have hp : prune ((w : Int) : ℚ) t (List.replicate i t) = List.replicate i t :=
        prune_replicate_self _ _ hw' i
      have hlt : ¬ ((k : Int) ≤ ((List.replicate i t).length : Int)) := by
        simp only [List.length_replicate]
        omega
      have step :
          acquireAt t { mk_rate_limiter (k : Int) w with requests := List.replicate i t } =
            .ok { mk_rate_limiter (k : Int) w with requests := List.replicate (i + 1) t } := by
        simp only [acquireAt, mk_rate_limiter, hp]
        rw [if_neg hlt]
        simp [List.replicate_succ']
      simp only [acquireIter, step]
      have := ih (i + 1) (by omega)
      simpa [Nat.add_assoc, Nat.add_comm, Nat.add_left_comm] using this

/-- Claim C2, amended. For capacity `k ≥ 1` and window `w ≥ 0`: the `k`
admissions at time `t` all succeed and fill the queue; at time `t` (no time
advance) `can_make_request` is false; and it becomes true again only after
advancing time by strictly more than `w` — the source evicts entries with
`now - r > time_window` strictly, so advancing by exactly `w` still reports
false (see the counterexample). -/
theorem C2_theorem (k : Nat) (w : Int) (t d : ℚ) (hk : 1 ≤ k) (hw : (0:Int) ≤ w)
    (hd : ((w : Int) : ℚ) < d) :
    acquireIter t k (mk_rate_limiter (k : Int) w) =
      .ok { mk_rate_limiter (k : Int) w with requests := List.replicate k t } ∧
    can_make_request t { mk_rate_limiter (k : Int) w with requests := List.replicate k t } = false ∧
    can_make_request (t + d) { mk_rate_limiter (k : Int) w with requests := List.replicate k t } = true := by
  have hw' : (0:ℚ) ≤ ((w : Int) : ℚ) := by exact_mod_cast hw
  refine ⟨?_, ?_, ?_⟩
  · have := acquireIter_fills k w t hw k 0 (by omega)
    simpa [mk_rate_limiter] using this
  · simp only [can_make_request, mk_rate_limiter, decide_eq_false_iff_not]
    rw [prune_replicate_self _ _ hw' k]
    simp
  · simp only [can_make_request, mk_rate_limiter, decide_eq_true_eq]
    rw [prune_replicate_gone _ _ _ (by linarith [hd]) k]
    simp
    omega

/-- Witness for C2 at `capacity=2, window=60`: two admissions at `t=0`, then
`can_make_request` is false at `t=0` and true at `t=61`. -/
theorem C2_witness :
    (1 ≤ 2 ∧ (0:Int) ≤ 60 ∧ ((60 : Int) : ℚ) < 61) ∧
    acquireIter 0 2 (mk_rate_limiter 2 60) =
      .ok { mk_rate_limiter 2 60 with requests := List.replicate 2 0 } ∧
    can_make_request 0 { mk_rate_limiter 2 60 with requests := List.replicate 2 0 } = false ∧
    can_make_request (0 + 61) { mk_rate_limiter 2 60 with requests := List.replicate 2 0 } = true :=
  ⟨⟨by decide, by decide, by decide⟩, C2_theorem 2 60 0 61 (by decide) (by decide) (by decide)⟩

/-- Counterexample to C2 as stated: `capacity=1, window=60`, one admission at
`t=0`; after advancing time by exactly the window (`now = 60`),
`can_make_request` still returns false, because the eviction test
`now - r > time_window` is strict. The claim promises true here. -/
theorem C2_counterexample :
    acquireIter 0 1 (mk_rate_limiter 1 60) =
      .ok { mk_rate_limiter 1 60 with requests := [0] } ∧
    can_make_request 60 { mk_rate_limiter 1 60 with requests := [0] } = false := by
  constructor
  · decide
  · decide

/-- Claim C9, amended. A `RateLimiter` with `max_requests ≤ 0` rejects every
admission attempt: `can_make_request` is false in every state, and `acquire`
from any reachable (empty-queue) state raises `IndexError` at
`self.requests[0]` before recording anything. Construction, however, is not
validated: see the counterexample for `time_window ≤ 0`. -/
theorem C9_theorem :
    (∀ (now : ℚ) (s : RLState), s.maxRequests ≤ 0 → can_make_request now s = false) ∧
    (∀ (now : ℚ) (s : RLState), s.maxRequests ≤ 0 → s.requests = [] →
      acquireAt now s = .error "IndexError: deque index out of range") := by
  constructor
  · intro now s h
    simp only [can_make_request, decide_eq_false_iff_not, not_lt]
    calc s.maxRequests ≤ 0 := h
      _ ≤ ((prune s.timeWindow now s.requests).length : Int) := Int.ofNat_nonneg _
  · intro now s h hreq
    simp only [acquireAt, hreq, prune]
    rw [if_pos]
    simpa using h

/-- Witness for C9 on a freshly constructed `RateLimiter(0, 60)`. -/
theorem C9_witness :
    ((mk_rate_limiter 0 60).maxRequests ≤ 0 ∧ (mk_rate_limiter 0 60).requests = []) ∧
    can_make_request 5 (mk_rate_limiter 0 60) = false ∧
    acquireAt 5 (mk_rate_limiter 0 60) = .error "IndexError: deque index out of range" :=
  ⟨⟨by decide, by decide⟩, C9_theorem.1 5 _ (by decide), C9_theorem.2 5 _ (by decide) (by decide)⟩

/-- Counterexample to C9 as stated: `RateLimiter(5, 0)` is not rejected at
construction — `__init__` (src/limiter.py:16-31) validates nothing — and the
constructed limiter operates normally: it admits a request at `t=0` and
reports headroom at `t=1`. -/
theorem C9_counterexample :
    acquireAt 0 (mk_rate_limiter 5 0) = .ok { mk_rate_limiter 5 0 with requests := [0] } ∧
    can_make_request 1 { mk_rate_limiter 5 0 with requests := [0] } = true := by
  constructor
  · decide
  · decide

/-! ## Facts about the adaptive limiter -/

/-- On nonnegative rationals, Python truncation agrees with the floor. -/
theorem pyInt_eq_floor (q : ℚ) (h : 0 ≤ q) : pyInt q = ⌊q⌋ := by
  rw [Rat.floor_def]
  exact Int.tdiv_eq_ediv (Rat.num_nonneg.mpr h) (Int.ofNat_nonneg _)

/-- A 429 response never increases the capacity. -/
theorem handle429_max_le (s : ARLState) :
    (handle_rate_limit_response 429 s).rl.maxRequests ≤ s.rl.maxRequests := by
  simp only [handle_rate_limit_response]
  split_ifs <;> simp_all <;> omega

/-- A 429 response keeps the capacity at the floor of 1 or above. -/
theorem handle429_one_le (s : ARLState) (h : 1 ≤ s.rl.maxRequests) :
    1 ≤ (handle_rate_limit_response 429 s).rl.maxRequests := by
  simp only [handle_rate_limit_response]
  split_ifs <;> simp_all <;> omega

/-- A 429 response bumps `consecutive_rate_limits` and leaves the adaptation
factor alone. -/
theorem handle429_fields (s : ARLState) :
    (handle_rate_limit_response 429 s).consecutiveRateLimits = s.consecutiveRateLimits + 1 ∧
    (handle_rate_limit_response 429 s).adaptationFactor = s.adaptationFactor := by
  simp only [handle_rate_limit_response]
  split_ifs <;> simp_all

/-- With an adaptation factor strictly between 0 and 1, a 429 response on an
existing failure streak strictly shrinks a capacity that is at least 2. -/
theorem handle429_max_lt (s : ARLState) (hf0 : 0 < s.adaptationFactor)
    (hf1 : s.adaptationFactor < 1) (hm : 2 ≤ s.rl.maxRequests)
    (hc : 1 ≤ s.consecutiveRateLimits) :
    (handle_rate_limit_response 429 s).rl.maxRequests < s.rl.maxRequests := by
  have hmq : (0:ℚ) < (s.rl.maxRequests : ℚ) := by
    have h' : (0:Int) < s.rl.maxRequests := by omega
    exact_mod_cast h'
  have hprod : (0:ℚ) ≤ (s.rl.maxRequests : ℚ) * s.adaptationFactor :=
    le_of_lt (mul_pos hmq hf0)
  have hlt : (s.rl.maxRequests : ℚ) * s.adaptationFactor < (s.rl.maxRequests : ℚ) :=
    mul_lt_of_lt_one_right hmq hf1
  have hfloor : pyInt ((s.rl.maxRequests : ℚ) * s.adaptationFactor) < s.rl.maxRequests := by
    rw [pyInt_eq_floor _ hprod]
    exact Int.floor_lt.mpr (by exact_mod_cast hlt)
  simp only [handle_rate_limit_response]
  split_ifs <;> simp_all <;> omega

/-- A success below the recovery threshold only bumps the success streak. -/
theorem handle200_below (s : ARLState) (h : s.consecutiveSuccesses + 1 < s.recoveryThreshold) :
    handle_rate_limit_response 200 s =
      { s with consecutiveSuccesses := s.consecutiveSuccesses + 1, consecutiveRateLimits := 0 } := by
  simp only [handle_rate_limit_response]
  split_ifs <;> simp_all <;> omega

/-- Iterating successes below the threshold from a clean streak only counts
them. -/
theorem iter200_below (n : Nat) (s : ARLState) (hcrl : s.consecutiveRateLimits = 0)
    (h : s.consecutiveSuccesses + n < s.recoveryThreshold) :
    handle_iter 200 n s = { s with consecutiveSuccesses := s.consecutiveSuccesses + n } := by
  induction n with
  | zero => simp [handle_iter]
  | succ m ih =>
      have hm : s.consecutiveSuccesses + m < s.recoveryThreshold := by omega
      simp only [handle_iter, ih hm]
      rw [handle200_below _ (by simpa using h)]
      simp only [hcrl]
      rfl

/-- A success that reaches the threshold, below original capacity and with
recovery attempts left, grows the capacity to `min(original, int(m * 1.2))`. -/
theorem handle200_grow (s : ARLState) (hcs : s.recoveryThreshold ≤ s.consecutiveSuccesses + 1)
    (hlt : s.rl.maxRequests < s.originalMaxRequests)
    (hra : s.recoveryAttempts < s.maxRecoveryAttempts) :
    (handle_rate_limit_response 200 s).rl.maxRequests =
      min s.originalMaxRequests (pyInt ((s.rl.maxRequests : ℚ) * (12 / 10))) := by
  simp only [handle_rate_limit_response]
  split_ifs <;> simp_all <;> omega

/-- `int(m * 1.2)` strictly exceeds `m` from capacity 5 upward. -/
theorem pyInt_twelve_tenths_gt (m : Int) (h5 : 5 ≤ m) :
    m < pyInt ((m : ℚ) * (12 / 10)) := by
  have h0 : (0:ℚ) ≤ (m : ℚ) * (12 / 10) := by
    have h' : (0:ℚ) ≤ (m : ℚ) := by exact_mod_cast (by omega : (0:Int) ≤ m)
    nlinarith
  rw [pyInt_eq_floor _ h0]
  have hle : ((m + 1 : Int) : ℚ) ≤ (m : ℚ) * (12 / 10) := by
    push_cast
    have h' : (5:ℚ) ≤ (m : ℚ) := by exact_mod_cast h5
    nlinarith
  have hfl := Int.le_floor.mpr hle
  omega

/-- Claim C1, amended. For every `AdaptiveRateLimiter` state:
(i) with an adaptation factor strictly between 0 and 1 (the constructor
clamps it into [0.1, 1.0]; its documented range is 0.5-0.9), two consecutive
429 responses strictly decrease the capacity whenever it is at least 2, and
never push it below the floor of 1;
(ii) `recovery_threshold` consecutive 2xx responses from a clean streak
strictly increase a capacity that is below the original and has recovery
attempts left PROVIDED the capacity is at least 5: the growth step is
`int(m * 1.2)`, which fixes every capacity in 1..4 (see the counterexample,
which refutes the unconditional claim);
(iii) no response ever pushes the capacity above the original capacity. -/
theorem C1_theorem :
    (∀ s : ARLState, 0 < s.adaptationFactor → s.adaptationFactor < 1 →
      2 ≤ s.rl.maxRequests →
      (handle_iter 429 2 s).rl.maxRequests < s.rl.maxRequests ∧
      1 ≤ (handle_iter 429 2 s).rl.maxRequests) ∧
    (∀ s : ARLState, s.consecutiveSuccesses = 0 → s.consecutiveRateLimits = 0 →
      1 ≤ s.recoveryThreshold → 5 ≤ s.rl.maxRequests →
      s.rl.maxRequests < s.originalMaxRequests →
      s.recoveryAttempts < s.maxRecoveryAttempts →
      s.rl.maxRequests < (handle_iter 200 s.recoveryThreshold s).rl.maxRequests) ∧
    (∀ (statusCode : Int) (s : ARLState), s.rl.maxRequests ≤ s.originalMaxRequests →
      (handle_rate_limit_response statusCode s).rl.maxRequests ≤ s.originalMaxRequests) := by
  refine ⟨?_, ?_, ?_⟩
  · intro s hf0 hf1 hm
    have h1 : handle_iter 429 2 s =
        handle_rate_limit_response 429 (handle_rate_limit_response 429 s) := by
      simp [handle_iter]
    set s1 := handle_rate_limit_response 429 s with hs1
    have hcrl1 : 1 ≤ s1.consecutiveRateLimits := by
      rw [hs1, (handle429_fields s).1]
      omega
    have hfac1 : s1.adaptationFactor = s.adaptationFactor := (handle429_fields s).2
    have hle1 : s1.rl.maxRequests ≤ s.rl.maxRequests := handle429_max_le s
    constructor
    · rw [h1]
      rcases lt_or_eq_of_le hle1 with hlt | heq
      · exact lt_of_le_of_lt (handle429_max_le s1) hlt
      · have h2 := handle429_max_lt s1 (by rw [hfac1]; exact hf0)
          (by rw [hfac1]; exact hf1) (by rw [heq]; exact hm) hcrl1
        rw [← heq]
        exact h2
    · rw [h1]
      exact handle429_one_le s1 (handle429_one_le s (by omega))
  · intro s hcs hcrl hthr h5 hlt hra
    obtain ⟨n, hn⟩ : ∃ n, s.recoveryThreshold = n + 1 :=
      ⟨s.recoveryThreshold - 1, by omega⟩
    have hiter : handle_iter 200 n s = { s with consecutiveSuccesses := n } := by
      have h' := iter200_below n s hcrl (by omega)
      simpa [hcs] using h'
    rw [hn]
    simp only [handle_iter, hiter]
    rw [handle200_grow _ (by simp [hcs]; omega) (by simpa using hlt) (by simpa using hra)]
    exact lt_min (by simpa using hlt) (pyInt_twelve_tenths_gt _ (by simpa using h5))
  · intro statusCode s h
    by_cases hsc : statusCode = 429
    · subst hsc
      exact le_trans (handle429_max_le s) h
    · by_cases hsu : 200 ≤ statusCode ∧ statusCode < 300
      · simp only [handle_rate_limit_response]
        rw [if_neg hsc, if_pos hsu]
        split_ifs with hg
        · simpa using min_le_left s.originalMaxRequests _
        · simpa using h
      · simp only [handle_rate_limit_response]
        rw [if_neg hsc, if_neg hsu]
        exact h

/-- A mid-recovery adaptive limiter: constructed at capacity 8, currently
reduced to 5 — concrete input for the recovery conjunct of `C1_theorem`. -/
def c1_recovery_state : ARLState :=
  { mk_adaptive_rate_limiter 8 60 (8 / 10) with
    rl := { mk_rate_limiter 8 60 with maxRequests := 5 } }

/-- Witness for C1 on the default-configured limiter `AdaptiveRateLimiter(8,
60, 0.8)` and its reduced-capacity variant `c1_recovery_state`. -/
theorem C1_witness :
    ((0:ℚ) < (mk_adaptive_rate_limiter 8 60 (8 / 10)).adaptationFactor ∧
      (mk_adaptive_rate_limiter 8 60 (8 / 10)).adaptationFactor < 1 ∧
      2 ≤ (mk_adaptive_rate_limiter 8 60 (8 / 10)).rl.maxRequests ∧
      5 ≤ c1_recovery_state.rl.maxRequests ∧
      c1_recovery_state.rl.maxRequests < c1_recovery_state.originalMaxRequests) ∧
    ((handle_iter 429 2 (mk_adaptive_rate_limiter 8 60 (8 / 10))).rl.maxRequests <
        (mk_adaptive_rate_limiter 8 60 (8 / 10)).rl.maxRequests ∧
      1 ≤ (handle_iter 429 2 (mk_adaptive_rate_limiter 8 60 (8 / 10))).rl.maxRequests) ∧
    c1_recovery_state.rl.maxRequests <
      (handle_iter 200 c1_recovery_state.recoveryThreshold c1_recovery_state).rl.maxRequests ∧
    (handle_rate_limit_response 200 (mk_adaptive_rate_limiter 8 60 (8 / 10))).rl.maxRequests ≤
      (mk_adaptive_rate_limiter 8 60 (8 / 10)).originalMaxRequests :=
  ⟨⟨by decide, by decide, by decide, by decide, by decide⟩,
    C1_theorem.1 _ (by decide) (by decide) (by decide),
    C1_theorem.2.1 _ (by decide) (by decide) (by decide) (by decide) (by decide) (by decide),
    C1_theorem.2.2 200 _ (by decide)⟩

/-- Counterexample to C1 as stated: drive `AdaptiveRateLimiter(8, 60, 0.8)`
to the floor with ten 429s (capacity 1, below the original 8, no recovery
attempt used), then feed it ten consecutive successes — one full
`recovery_threshold` streak. The capacity does not increase: `int(1 * 1.2) =
1`. The claim promises a strict increase. -/
theorem C1_counterexample :
    (handle_iter 429 10 (mk_adaptive_rate_limiter 8 60 (8 / 10))).rl.maxRequests = 1 ∧
    (handle_iter 429 10 (mk_adaptive_rate_limiter 8 60 (8 / 10))).consecutiveSuccesses = 0 ∧
    (handle_iter 429 10 (mk_adaptive_rate_limiter 8 60 (8 / 10))).recoveryAttempts = 0 ∧
    (1:Int) < (mk_adaptive_rate_limiter 8 60 (8 / 10)).originalMaxRequests ∧
    (handle_iter 200 10 (handle_iter 429 10 (mk_adaptive_rate_limiter 8 60 (8 / 10)))).rl.maxRequests = 1 ∧
    (handle_iter 200 10 (handle_iter 429 10 (mk_adaptive_rate_limiter 8 60 (8 / 10)))).recoveryAttempts = 1 := by
  refine ⟨by decide, by decide, by decide, by decide, by decide, by decide⟩

/-! ## Facts about the per-action limiter -/

/-- Claim C4, amended. `handle_response` forwards the status code to the
overall adaptive limiter only. The per-type limiters are plain
`RateLimiter`s, so the `isinstance(limiter, AdaptiveRateLimiter)` guard at
src/limiter.py:352 is false for every action type and none of them ever
receives the response: all five are left exactly unchanged, for every action
type and status code. -/
theorem C4_theorem (actionType : String) (statusCode : Int) (s : BALState) :
    (handle_response actionType statusCode s).overallLimiter =
      handle_rate_limit_response statusCode s.overallLimiter ∧
    (handle_response actionType statusCode s).postLimiter = s.postLimiter ∧
    (handle_response actionType statusCode s).likeLimiter = s.likeLimiter ∧
    (handle_response actionType statusCode s).repostLimiter = s.repostLimiter ∧
    (handle_response actionType statusCode s).followLimiter = s.followLimiter ∧
    (handle_response actionType statusCode s).searchLimiter = s.searchLimiter := by
  simp [handle_response]

/-- Counterexample to C4 as stated: two 429 responses reported for `'post'`
shrink the overall adaptive limiter (8 → 6) but leave the per-type post
limiter entirely unchanged at capacity 2 — the per-type limiter did not
adapt, while the claim says both limiters adapt. -/
theorem C4_counterexample :
    (handle_response "post" 429 (handle_response "post" 429 mk_bot_action_limiter)).overallLimiter.rl.maxRequests = 6 ∧
    (handle_response "post" 429 (handle_response "post" 429 mk_bot_action_limiter)).postLimiter =
      mk_bot_action_limiter.postLimiter ∧
    (handle_response "post" 429 (handle_response "post" 429 mk_bot_action_limiter)).postLimiter.maxRequests = 2 := by
  refine ⟨by decide, by decide, by decide⟩

/-- Claim C10. For an action type outside the five configured ones,
`can_perform_action` coincides with the overall limiter's headroom check,
and `acquire` touches only the overall limiter: the per-type check is
silently skipped because `self.limiters.get(action_type)` returns `None`. -/
theorem C10_theorem (now : ℚ) (actionType : String) (s : BALState)
    (h : actionType ∉ (["post", "like", "repost", "follow", "search"] : List String)) :
    can_perform_action now actionType s = can_make_request now s.overallLimiter.rl ∧
    acquire_action now actionType s =
      (acquireAt now s.overallLimiter.rl).map
        (fun orl => { s with overallLimiter := { s.overallLimiter with rl := orl } }) := by
  simp only [List.mem_cons, List.mem_singleton, not_or] at h
  obtain ⟨h1, h2, h3, h4, h5, -⟩ := h
  have hget : limiters_get s actionType = none := by
    simp [limiters_get, h1, h2, h3, h4, h5]
  constructor
  · rw [can_perform_action, hget]
    cases hcm : can_make_request now s.overallLimiter.rl <;> simp [hcm]
  · rw [acquire_action]
    cases hacq : acquireAt now s.overallLimiter.rl with
    | error e => simp [Except.map]
    | ok orl =>
        simp only [Except.map]
        rw [acquire_type_limiter]
        simp [h1, h2, h3, h4, h5]

/-- Witness for C10: the unconfigured action type `'reply'` on a fresh
`BotActionLimiter` at `t = 0`. -/
theorem C10_witness :
    ("reply" ∉ (["post", "like", "repost", "follow", "search"] : List String)) ∧
    can_perform_action 0 "reply" mk_bot_action_limiter =
      can_make_request 0 mk_bot_action_limiter.overallLimiter.rl ∧
    acquire_action 0 "reply" mk_bot_action_limiter =
      (acquireAt 0 mk_bot_action_limiter.overallLimiter.rl).map
        (fun orl =>
          { mk_bot_action_limiter with
            overallLimiter := { mk_bot_action_limiter.overallLimiter with rl := orl } }) :=
  ⟨by decide, C10_theorem 0 "reply" mk_bot_action_limiter (by decide)⟩

/-! ## Facts about sentiment classification -/

/-- Claim C7. The four branches of `_analyze_post_sentiment`: the candidate
with the strictly higher keyword count is credited with positive sentiment
when positive matches strictly exceed negative matches, with strength
`min(1, (candidateMatches + positiveMatches)/5)`; when negative matches
strictly dominate positive ones the content is negative with strength
`min(1, negativeMatches/3)` and no candidate; otherwise neutral. And the
spec's scenario: the Victor sample text classifies as candidate `victor`,
positive, with strength 1 > 0. -/
theorem C7_theorem :
    (∀ content : String,
      let v := count_keyword_matches victor_keywords (toLowerStr content)
      let m := count_keyword_matches marina_keywords (toLowerStr content)
      let p := count_keyword_matches positive_keywords (toLowerStr content)
      let n := count_keyword_matches negative_keywords (toLowerStr content)
      (v > m → p > n →
        analyze_post_sentiment content =
          { candidate := some "victor", sentimentType := "positive",
            strength := min 1 (((v : ℚ) + (p : ℚ)) / 5) }) ∧
      (m > v → p > n →
        analyze_post_sentiment content =
          { candidate := some "marina", sentimentType := "positive",
            strength := min 1 (((m : ℚ) + (p : ℚ)) / 5) }) ∧
      (n > p →
        analyze_post_sentiment content =
          { candidate := none, sentimentType := "negative",
            strength := min 1 ((n : ℚ) / 3) }) ∧
      (¬ (v > m ∧ p > n) → ¬ (m > v ∧ p > n) → ¬ (n > p) →
        analyze_post_sentiment content =
          { candidate := none, sentimentType := "neutral", strength := 0 })) ∧
    (analyze_post_sentiment victor_sample_text =
        { candidate := some "victor", sentimentType := "positive", strength := 1 } ∧
      (0:ℚ) < (analyze_post_sentiment victor_sample_text).strength) := by
  constructor
  · intro content v m p n
    refine ⟨?_, ?_, ?_, ?_⟩
    · intro h1 h2
      simp only [analyze_post_sentiment]
      rw [if_pos ⟨h1, h2⟩]
    · intro h1 h2
      simp only [analyze_post_sentiment]
      rw [if_neg (fun hc => absurd hc.1 (by omega)), if_pos ⟨h1, h2⟩]
    · intro h1
      simp only [analyze_post_sentiment]
      rw [if_neg (fun hc => absurd hc.2 (by omega)),
        if_neg (fun hc => absurd hc.2 (by omega)), if_pos h1]
    · intro h1 h2 h3
      simp only [analyze_post_sentiment]
      rw [if_neg h1, if_neg h2, if_neg h3]
  · exact ⟨by decide, by decide⟩

/-- Witness for C7 on `"marina is great"`: one marina keyword, one positive
keyword, nothing else. -/
theorem C7_witness :
    (count_keyword_matches marina_keywords (toLowerStr "marina is great") >
        count_keyword_matches victor_keywords (toLowerStr "marina is great") ∧
      count_keyword_matches positive_keywords (toLowerStr "marina is great") >
        count_keyword_matches negative_keywords (toLowerStr "marina is great")) ∧
    analyze_post_sentiment "marina is great" =
      { candidate := some "marina", sentimentType := "positive",
        strength := min 1
          (((count_keyword_matches marina_keywords (toLowerStr "marina is great") : ℚ) +
            (count_keyword_matches positive_keywords (toLowerStr "marina is great") : ℚ)) / 5) } :=
  ⟨⟨by decide, by decide⟩, (C7_theorem.1 "marina is great").2.1 (by decide) (by decide)⟩

/-! ## Facts about weighted random choice -/

/-- Unfolding `wrc_scan` one step on a two-or-more element list. -/
theorem wrc_scan_cons_cons (r cw : ℚ) (o o2 : String × ℚ) (rest : List (String × ℚ)) :
    wrc_scan r cw (o :: o2 :: rest) =
      if r ≤ cw + o.2 then some o.1 else wrc_scan r (cw + o.2) (o2 :: rest) := by
  obtain ⟨nm, w⟩ := o
  rfl

/-- On a singleton list the scan returns that option either way (the fallback
`options[-1][0]` coincides with the test). -/
theorem wrc_scan_single (r cw : ℚ) (o : String × ℚ) :
    wrc_scan r cw [o] = some o.1 := by
  obtain ⟨nm, w⟩ := o
  simp only [wrc_scan]
  split_ifs <;> rfl

/-- The cumulative scan always selects an option on a non-empty list. -/
theorem wrc_scan_isSome (r : ℚ) :
    ∀ (options : List (String × ℚ)) (cw : ℚ) (o : String × ℚ),
      (wrc_scan r cw (o :: options)).isSome = true := by
  intro options
  induction options with
  | nil =>
      intro cw o
      rw [wrc_scan_single]
      rfl
  | cons o2 rest ih =>
      intro cw o
      rw [wrc_scan_cons_cons]
      split_ifs
      · rfl
      · exact ih (cw + o.2) o2

/-- Claim C8, amended. When the total weight is exactly zero — in particular
for all-zero weights — `_weighted_random_choice` deterministically returns
the first option, for every draw `r`, and it never raises, loops, or divides
(the embedding is a total function returning `some _` on every non-empty
input). A strictly negative total weight, however, falls through the
cumulative scan and can return the LAST option instead — see the
counterexample, which refutes the "non-positive" claim. -/
theorem C8_theorem :
    (∀ (o : String × ℚ) (options : List (String × ℚ)) (r : ℚ),
      ((o :: options).map Prod.snd).sum = 0 →
      weighted_random_choice (o :: options) r = some o.1) ∧
    (∀ (o : String × ℚ) (options : List (String × ℚ)) (r : ℚ),
      (weighted_random_choice (o :: options) r).isSome = true) := by
  constructor
  · intro o options r h
    simp only [weighted_random_choice]
    rw [if_pos h]
    simp
  · intro o options r
    simp only [weighted_random_choice]
    split_ifs with h
    · simp
    · exact wrc_scan_isSome r options 0 o

/-- Witness for C8 on the all-zero-weight list `[("a", 0), ("b", 0)]` with
draw `r = 5`. -/
theorem C8_witness :
    (((("a", (0:ℚ)) :: [("b", (0:ℚ))]).map Prod.snd).sum = 0) ∧
    weighted_random_choice [("a", (0:ℚ)), ("b", (0:ℚ))] 5 = some "a" ∧
    (weighted_random_choice [("a", (0:ℚ)), ("b", (0:ℚ))] 5).isSome = true :=
  ⟨by decide, C8_theorem.1 ("a", 0) [("b", 0)] 5 (by decide),
    C8_theorem.2 ("a", 0) [("b", 0)] 5⟩

/-- Counterexample to C8 as stated: with weights `[-1, -1]` the total weight
is `-2 < 0` (non-positive, so the claim demands the first option `"a"`), and
`random.uniform(0, -2)` legitimately draws `r = -1/2`; the scan then falls
through to the LAST option `"b"`. -/
theorem C8_counterexample :
    ((([("a", (-1:ℚ)), ("b", (-1:ℚ))]).map Prod.snd).sum < 0) ∧
    weighted_random_choice [("a", (-1:ℚ)), ("b", (-1:ℚ))] (-(1/2)) = some "b" := by
  refine ⟨by decide, by decide⟩

/-! ## Facts about the strategy engine -/

/-- `_update_performance_metrics` writes only `strategy_weights`: the recent
actions, the coordination queue and the political-ratio target survive it. -/
theorem update_performance_metrics_fields (stats : BotStats) (s : StratState) :
    (update_performance_metrics stats s).recentActions = s.recentActions ∧
    (update_performance_metrics stats s).coordinationObjectives = s.coordinationObjectives ∧
    (update_performance_metrics stats s).politicalRatioTarget = s.politicalRatioTarget := by
  simp only [update_performance_metrics]
  split_ifs <;> simp

/-- Claim C3. In the political-influence phase, with no pending coordination
objective and the recent-action history's political ratio strictly below the
target, `get_next_action` returns the deterministic
`_get_political_content_action` — a `'post'` with `content_type
'political'` — for EVERY random draw `r`: this branch never consults the
weighted choice. -/
theorem C3_theorem (stats : BotStats) (now r : ℚ) (s : StratState)
    (hobj : s.coordinationObjectives = [])
    (hratio : current_political_ratio s.recentActions < s.politicalRatioTarget) :
    (get_next_action "political_influence" stats now r s).1 =
      { atype := "post", contentType := some "political" } := by
  obtain ⟨hra, hco, hpt⟩ := update_performance_metrics_fields stats s
  have hco2 : (update_performance_metrics stats s).coordinationObjectives = [] :=
    hco.trans hobj
  have hnone : check_coordination_objectives now (update_performance_metrics stats s) = none := by
    simp only [check_coordination_objectives, hco2]
  unfold get_next_action
  simp only []
  rw [hnone]
  simp only []
  rw [if_neg (by decide : ¬ ("political_influence" = "audience_building"))]
  simp only [get_political_influence_action, hra, hpt]
  rw [if_pos hratio]
  rfl

/-- A concrete strategy-engine state for the C3 witness: empty recent
history, no coordination objectives, target political ratio 0.4. -/
def c3_state : StratState :=
  { recentActions := []
    coordinationObjectives := []
    postCreationWeight := 4 / 10
    engagementWeight := 3 / 10
    trendingParticipationWeight := 2 / 10
    npcTargetingWeight := 1 / 10
    politicalRatioTarget := 4 / 10
    actionCooldowns := []
    trendingTopicsContext := [] }

/-- The zero bot-stats record. -/
def bot_stats0 : BotStats :=
  { postsCreated := 0, likesGiven := 0, repostsMade := 0
    npcInteractions := 0, politicalPosts := 0 }

/-- Witness for C3 on `c3_state` (political ratio 0 < target 0.4) with draw
`r = 7/10` — a draw that would otherwise have selected a non-post option. -/
theorem C3_witness :
    (c3_state.coordinationObjectives = [] ∧
      current_political_ratio c3_state.recentActions < c3_state.politicalRatioTarget) ∧
    (get_next_action "political_influence" bot_stats0 0 (7 / 10) c3_state).1 =
      { atype := "post", contentType := some "political" } :=
  ⟨⟨by decide, by decide⟩, C3_theorem bot_stats0 0 (7 / 10) c3_state (by decide) (by decide)⟩

/-! ## Facts about action execution and state updates -/

/-- When the platform calls all fail (like/repost failed, reply draft posted
nothing), `_execute_engagement_action` reduces to exactly its unconditional
NPC-tracking tail. -/
theorem execute_engagement_failure (username pid author ety : String)
    (rc : Option String) (st : AgentSlice) :
    execute_engagement_action username (some (pid, author)) ety false false rc false st =
      if author ≠ username ∧ (author.toList.contains '@') = false then
        { st with engagedNpcs := insert_target author st.engagedNpcs,
                  npcInteractions := st.npcInteractions + 1 }
      else st := by
  cases rc with
  | none =>
      simp only [execute_engagement_action]
      split_ifs <;> first | rfl | simp_all [post_content, like_post, repost]
  | some c =>
      simp only [execute_engagement_action]
      split_ifs <;> first | rfl | simp_all [post_content, like_post, repost]

/-- Claim C5, amended. When the external platform call fails (or returns no
response): every stats counter (`likes_given`, `reposts_made`,
`replies_made`, `posts_created`, `strategic_replies`, `action_count`) and
`followed_accounts` are left unchanged by every engagement and follow path —
but `engaged_npcs` and `npc_interactions` are NOT success-gated: the
NPC-tracking tail of `_execute_engagement_action` runs unconditionally and
mutates both for any non-self author without `'@'`, even on a failed call
(see the counterexample). -/
theorem C5_theorem :
    (∀ (username pid author ety : String) (rc : Option String) (st : AgentSlice),
      ((execute_engagement_action username (some (pid, author)) ety false false rc false st).likesGiven = st.likesGiven ∧
        (execute_engagement_action username (some (pid, author)) ety false false rc false st).repostsMade = st.repostsMade ∧
        (execute_engagement_action username (some (pid, author)) ety false false rc false st).repliesMade = st.repliesMade ∧
        (execute_engagement_action username (some (pid, author)) ety false false rc false st).postsCreated = st.postsCreated ∧
        (execute_engagement_action username (some (pid, author)) ety false false rc false st).strategicReplies = st.strategicReplies ∧
        (execute_engagement_action username (some (pid, author)) ety false false rc false st).actionCount = st.actionCount ∧
        (execute_engagement_action username (some (pid, author)) ety false false rc false st).followedAccounts = st.followedAccounts) ∧
      (author ≠ username → (author.toList.contains '@') = false →
        (execute_engagement_action username (some (pid, author)) ety false false rc false st).engagedNpcs =
          insert_target author st.engagedNpcs ∧
        (execute_engagement_action username (some (pid, author)) ety false false rc false st).npcInteractions =
          st.npcInteractions + 1)) ∧
    (∀ (u : String) (st : AgentSlice), execute_follow_action (some u) false st = st) ∧
    (∀ (pid : Option String) (st : AgentSlice),
      post_content false pid st = (false, st) ∧
      like_post false st = (false, st) ∧
      repost false st = (false, st)) := by
  refine ⟨?_, ?_, ?_⟩
  · intro username pid author ety rc st
    rw [execute_engagement_failure]
    split_ifs with h
    · exact ⟨⟨rfl, rfl, rfl, rfl, rfl, rfl, rfl⟩, fun _ _ => ⟨rfl, rfl⟩⟩
    · exact ⟨⟨rfl, rfl, rfl, rfl, rfl, rfl, rfl⟩, fun h1 h2 => absurd ⟨h1, h2⟩ h⟩
  · intro u st
    simp only [execute_follow_action]
    split_ifs <;> simp_all
  · intro pid st
    exact ⟨rfl, rfl, rfl⟩

/-- Witness for C5: a failed like on a post by `"npcuser"`, executed by
`"bot1"` from the fresh agent state. -/
theorem C5_witness :
    ("npcuser" ≠ "bot1" ∧ ("npcuser".toList.contains '@') = false) ∧
    (execute_engagement_action "bot1" (some ("p1", "npcuser")) "like" false false none false agent_slice0).likesGiven =
      agent_slice0.likesGiven ∧
    (execute_engagement_action "bot1" (some ("p1", "npcuser")) "like" false false none false agent_slice0).engagedNpcs =
      insert_target "npcuser" agent_slice0.engagedNpcs ∧
    (execute_engagement_action "bot1" (some ("p1", "npcuser")) "like" false false none false agent_slice0).npcInteractions =
      agent_slice0.npcInteractions + 1 ∧
    execute_follow_action (some "npcuser") false agent_slice0 = agent_slice0 ∧
    like_post false agent_slice0 = (false, agent_slice0) :=
  ⟨⟨by decide, by decide⟩,
    (C5_theorem.1 "bot1" "p1" "npcuser" "like" none agent_slice0).1.1,
    ((C5_theorem.1 "bot1" "p1" "npcuser" "like" none agent_slice0).2 (by decide) (by decide)).1,
    ((C5_theorem.1 "bot1" "p1" "npcuser" "like" none agent_slice0).2 (by decide) (by decide)).2,
    C5_theorem.2.1 "npcuser" agent_slice0,
    (C5_theorem.2.2 none agent_slice0).2.1⟩

/-- Counterexample to C5 as stated: the like call FAILS, yet the agent state
still changes — `"npcuser"` is added to `engaged_npcs` and
`npc_interactions` is bumped to 1, because the NPC-tracking block runs
regardless of the call's outcome. The claim says all counters and sets stay
unchanged on failure. -/
theorem C5_counterexample :
    execute_engagement_action "bot1" (some ("p1", "npcuser")) "like" false false none false agent_slice0 =
      { agent_slice0 with engagedNpcs := ["npcuser"], npcInteractions := 1 } ∧
    { agent_slice0 with engagedNpcs := ["npcuser"], npcInteractions := 1 } ≠ agent_slice0 := by
  refine ⟨by decide, by decide⟩

/-! ## Facts about fleet creation -/

/-- With all credentials valid, the creation loop builds one bot per index,
assigning personas round-robin by the loop index. -/
theorem fleet_loop_all_valid (creds : List BotCredentials) (personas : List String)
    (hvalid : ∀ c ∈ creds, c.username ≠ "" ∧ c.password ≠ "") :
    ∀ (fuel i : Nat), i + fuel ≤ creds.length →
      (fleet_loop creds personas fuel i).length = fuel ∧
      ∀ j, j < fuel →
        (fleet_loop creds personas fuel i).get? j =
          some { username := (creds.getD (i + j) ⟨"", ""⟩).username,
                 personaName := personas.getD ((i + j) % personas.length) "" } := by
  intro fuel
  induction fuel with
  | zero =>
      intro i _
      exact ⟨rfl, fun j hj => absurd hj (by omega)⟩
  | succ m ih =>
      intro i hif
      have hi : i < creds.length := by omega
      obtain ⟨c, hc⟩ : ∃ c, creds.get? i = some c :=
        ⟨creds.get ⟨i, hi⟩, List.get?_eq_get hi⟩
      have hmem : c ∈ creds := List.get?_mem hc
      obtain ⟨hu, hp⟩ := hvalid c hmem
      obtain ⟨ihlen, ihget⟩ := ih (i + 1) (by omega)
      simp only [fleet_loop, hc]
      rw [if_neg (by simp [hu, hp])]
      refine ⟨by simp [ihlen], ?_⟩
      intro j hj
      cases j with
      | zero =>
          have hcd : creds.getD (i + 0) ⟨"", ""⟩ = c := by
            have hc2 : creds[i]? = some c := by
              rw [← List.get?_eq_getElem?]
              exact hc
            simp [List.getD, hc2]
          rw [List.get?_cons_zero, hcd]
          simp
      | succ j' =>
          have h' := ihget j' (by omega)
          have e : i + 1 + j' = i + (j' + 1) := by omega
          rw [e] at h'
          rw [List.get?_cons_succ, h']

/-- Claim C6, amended. `create_bot_fleet(n)` returns false (creating nothing)
when fewer than `n` credentials are configured, and when no personas are
configured; with all credentials valid it creates exactly `n` bots assigning
persona `i % numPersonas` to the bot of loop index `i`, and reports success
exactly when at least one bot exists. But the success flag is
`len(self.bots) > 0`, NOT `len == n`: invalid credentials are skipped with
`continue`, so a partially created fleet smaller than `n` is still reported
as success (see the counterexample). -/
theorem C6_theorem :
    (∀ (n : Nat) (creds : List BotCredentials) (personas : List String),
      creds.length < n → create_bot_fleet n creds personas = (false, [])) ∧
    (∀ (n : Nat) (creds : List BotCredentials) (personas : List String),
      n ≤ creds.length → personas = [] → create_bot_fleet n creds personas = (false, [])) ∧
    (∀ (n : Nat) (creds : List BotCredentials) (personas : List String),
      n ≤ creds.length → personas ≠ [] →
      (∀ c ∈ creds, c.username ≠ "" ∧ c.password ≠ "") →
      (create_bot_fleet n creds personas).2.length = n ∧
      (∀ j, j < n → (create_bot_fleet n creds personas).2.get? j =
        some { username := (creds.getD j ⟨"", ""⟩).username,
               personaName := personas.getD (j % personas.length) "" }) ∧
      (create_bot_fleet n creds personas).1 = decide (0 < n)) := by
  refine ⟨?_, ?_, ?_⟩
  · intro n creds personas h
    simp only [create_bot_fleet]
    rw [if_pos h]
  · intro n creds personas h hper
    simp only [create_bot_fleet]
    rw [if_neg (by omega), if_pos (by simp [hper])]
  · intro n creds personas h hper hvalid
    obtain ⟨hlen, hget⟩ := fleet_loop_all_valid creds personas hvalid n 0 (by omega)
    have hne : ¬ personas.isEmpty = true := by
      cases personas with
      | nil => exact absurd rfl hper
      | cons p ps => simp
    simp only [create_bot_fleet]
    rw [if_neg (by omega), if_neg hne]
    refine ⟨hlen, ?_, by rw [hlen]⟩
    intro j hj
    have h' := hget j hj
    simpa using h'

/-- Witness for C6: two valid credentials, two bots requested, one persona —
fleet of exactly 2, personas `p0, p0`, success true. -/
theorem C6_witness :
    ((2:Nat) ≤ 2 ∧ (["citizen"] : List String) ≠ [] ∧
      (∀ c ∈ [(⟨"alice", "pw1"⟩ : BotCredentials), ⟨"bob", "pw2"⟩],
        c.username ≠ "" ∧ c.password ≠ "")) ∧
    (create_bot_fleet 2 [⟨"alice", "pw1"⟩, ⟨"bob", "pw2"⟩] ["citizen"]).2.length = 2 ∧
    (create_bot_fleet 2 [⟨"alice", "pw1"⟩, ⟨"bob", "pw2"⟩] ["citizen"]).2.get? 1 =
      some { username := "bob", personaName := "citizen" } ∧
    (create_bot_fleet 2 [⟨"alice", "pw1"⟩, ⟨"bob", "pw2"⟩] ["citizen"]).1 = decide (0 < 2) :=
  ⟨⟨by decide, by decide, by decide⟩,
    (C6_theorem.2.2 2 [⟨"alice", "pw1"⟩, ⟨"bob", "pw2"⟩] ["citizen"]
      (by decide) (by decide) (by decide)).1,
    ((C6_theorem.2.2 2 [⟨"alice", "pw1"⟩, ⟨"bob", "pw2"⟩] ["citizen"]
      (by decide) (by decide) (by decide)).2.1 1 (by decide)),
    (C6_theorem.2.2 2 [⟨"alice", "pw1"⟩, ⟨"bob", "pw2"⟩] ["citizen"]
      (by decide) (by decide) (by decide)).2.2⟩

/-- Counterexample to C6 as stated: two credentials are configured but the
second has an empty password, so it is skipped; the fleet ends up with ONE
bot instead of the requested two, yet `create_bot_fleet` reports success —
it never reports failure for a partially created fleet. -/
theorem C6_counterexample :
    create_bot_fleet 2 [⟨"alice", "pw1"⟩, ⟨"bob", ""⟩] ["citizen"] =
      (true, [{ username := "alice", personaName := "citizen" }]) ∧
    (create_bot_fleet 2 [⟨"alice", "pw1"⟩, ⟨"bob", ""⟩] ["citizen"]).2.length ≠ 2 := by
  refine ⟨by decide, by decide⟩
